import Mathlib

/-!
Shallow embedding of `src/consensus/params.h` (namecoin consensus
parameters): the three network rule-policy variants and the derived
queries of `Consensus::Params`.

Machine integers are modelled exactly: `unsigned` arguments are natural
numbers taken modulo 2^32 where the code converts them, `int`/`int64_t`
values are `Int` (with explicit range hypotheses where the 32-bit width
of a field matters), and C++ signed division is truncating division.
-/

namespace Consensus

/-- Modelled from the spec: `COIN` comes from `amount.h`, which is not part
of this repository slice; the spec describes amounts only as fractions of
"one coin", so one coin is a fixed positive constant of base units.
`CAmount` is `int64_t`, modelled as `Int`. -/
def COIN : Int := 100000000

/-- `MainNetConsensus::NameExpirationDepth` (params.h lines 42-54).
The argument and result are `unsigned`; for `24000 <= nHeight < 48000`
the subtraction `nHeight - 12000` cannot wrap, so `Nat` subtraction is
exact here. -/
def MainNet_NameExpirationDepth (nHeight : Nat) : Nat :=
  if nHeight < 24000 then 12000
  else if nHeight < 48000 then nHeight - 12000
  else 36000

/-- `MainNetConsensus::MinNameCoinAmount` (params.h lines 56-62). -/
def MainNet_MinNameCoinAmount (nHeight : Nat) : Int :=
  if nHeight < 212500 then 0
  else COIN / 100

/-- `TestNetConsensus` inherits `NameExpirationDepth` from
`MainNetConsensus` (params.h lines 66-75 override only
`MinNameCoinAmount`). -/
def TestNet_NameExpirationDepth (nHeight : Nat) : Nat :=
  MainNet_NameExpirationDepth nHeight

/-- `TestNetConsensus::MinNameCoinAmount` (params.h lines 70-73):
ignores its argument. -/
def TestNet_MinNameCoinAmount (_nHeight : Nat) : Int :=
  COIN / 100

/-- `RegTestConsensus::NameExpirationDepth` (params.h lines 81-84):
ignores its argument. -/
def RegTest_NameExpirationDepth (_nHeight : Nat) : Nat :=
  30

/-- `RegTestConsensus` inherits `MinNameCoinAmount` from
`TestNetConsensus` (params.h lines 77-86). -/
def RegTest_MinNameCoinAmount (nHeight : Nat) : Int :=
  TestNet_MinNameCoinAmount nHeight

/-- `static_cast<int>` of an `unsigned` value: reduce modulo 2^32 and
reinterpret in two's complement as a signed 32-bit integer. -/
def toInt32 (n : Nat) : Int :=
  if n % 2 ^ 32 < 2 ^ 31 then ((n % 2 ^ 32 : Nat) : Int)
  else ((n % 2 ^ 32 : Nat) : Int) - 2 ^ 32

/-- The fields of `Consensus::Params` (params.h lines 119-183) that its
derived queries read.  `fPowAllowMinDifficultyBlocks : bool`;
`nMinDifficultySince, nPowTargetSpacing, nPowTargetTimespan : int64_t`;
`nLegacyBlocksBefore : int` (32-bit).  The remaining fields of the C++
struct are plain data never read by any member function and are omitted. -/
structure Params where
  fPowAllowMinDifficultyBlocks : Bool
  nMinDifficultySince : Int
  nPowTargetSpacing : Int
  nPowTargetTimespan : Int
  nLegacyBlocksBefore : Int

/-- `Consensus::Params::DifficultyAdjustmentInterval` (params.h line 146):
`nPowTargetTimespan / nPowTargetSpacing` with C++ `int64_t` division,
which truncates toward zero (`Int.tdiv`). -/
def Params.DifficultyAdjustmentInterval (p : Params) : Int :=
  Int.tdiv p.nPowTargetTimespan p.nPowTargetSpacing

/-- `Consensus::Params::AllowMinDifficultyBlocks` (params.h lines 165-170). -/
def Params.AllowMinDifficultyBlocks (p : Params) (nBlockTime : Int) : Bool :=
  if !p.fPowAllowMinDifficultyBlocks then false
  else decide (nBlockTime > p.nMinDifficultySince)

/-- `Consensus::Params::AllowLegacyBlocks` (params.h lines 177-182).
The `unsigned` argument is converted with `static_cast<int>` before the
comparison. -/
def Params.AllowLegacyBlocks (p : Params) (nHeight : Nat) : Bool :=
  if p.nLegacyBlocksBefore < 0 then true
  else decide (toInt32 nHeight < p.nLegacyBlocksBefore)

/-- Sample parameter bundle with legacy-block cutoff 100 (non-negative). -/
def pCut100 : Params :=
  { fPowAllowMinDifficultyBlocks := false
    nMinDifficultySince := 0
    nPowTargetSpacing := 600
    nPowTargetTimespan := 1209600
    nLegacyBlocksBefore := 100 }

/-- Sample parameter bundle with the negative sentinel cutoff -1. -/
def pCutNeg1 : Params :=
  { fPowAllowMinDifficultyBlocks := false
    nMinDifficultySince := 0
    nPowTargetSpacing := 600
    nPowTargetTimespan := 1209600
    nLegacyBlocksBefore := -1 }

/-- Sample parameter bundle with minimum-difficulty blocks enabled. -/
def pMinDiffOn : Params :=
  { fPowAllowMinDifficultyBlocks := true
    nMinDifficultySince := 1000
    nPowTargetSpacing := 600
    nPowTargetTimespan := 1209600
    nLegacyBlocksBefore := -1 }

/-- Sample parameter bundle with a non-divisible pow timespan/spacing pair. -/
def pOddPow : Params :=
  { fPowAllowMinDifficultyBlocks := false
    nMinDifficultySince := 0
    nPowTargetSpacing := 300
    nPowTargetTimespan := 1000
    nLegacyBlocksBefore := -1 }

/-- Conversion of an `unsigned` value below 2^31 to `int` is the identity. -/
theorem toInt32_of_small (n : Nat) (hn : n < 2 ^ 31) : toInt32 n = n := by
  unfold toInt32
  rw [Nat.mod_eq_of_lt (by omega)]
  rw [if_pos hn]

/-- Conversion of an `unsigned` value in [2^31, 2^32) to `int` wraps to the
negative value `n - 2^32`. -/
theorem toInt32_of_wrap (n : Nat) (h1 : 2 ^ 31 ≤ n) (h2 : n < 2 ^ 32) :
    toInt32 n = (n : Int) - 2 ^ 32 := by
  unfold toInt32
  rw [Nat.mod_eq_of_lt h2]
  rw [if_neg (by omega)]

end Consensus

open Consensus

/-- C1: for the Main network profile, `height - NameExpirationDepth(height)`
(as an exact integer, possibly negative) is non-decreasing in the height,
including across the breakpoints at 24000 and 48000. -/
theorem mainNet_expired_boundary_monotone (h1 h2 : Nat) (hle : h1 ≤ h2) :
    (h1 : Int) - MainNet_NameExpirationDepth h1 ≤
      (h2 : Int) - MainNet_NameExpirationDepth h2 := by
  unfold MainNet_NameExpirationDepth
  split_ifs <;> omega

/-- C1 witness: instance across the first breakpoint. -/
theorem mainNet_expired_boundary_monotone_witness :
    23999 ≤ 48000 ∧
      ((23999 : Nat) : Int) - MainNet_NameExpirationDepth 23999 ≤
        ((48000 : Nat) : Int) - MainNet_NameExpirationDepth 48000 :=
  ⟨by decide, mainNet_expired_boundary_monotone 23999 48000 (by decide)⟩

/-- C2: Main's `NameExpirationDepth` is exactly the piecewise function
`h<24000 → 12000; 24000 ≤ h < 48000 → h - 12000; h ≥ 48000 → 36000`,
with the stated boundary values. -/
theorem mainNet_nameExpirationDepth_spec :
    (∀ h : Nat,
        (h < 24000 → MainNet_NameExpirationDepth h = 12000) ∧
        (24000 ≤ h → h < 48000 → MainNet_NameExpirationDepth h = h - 12000) ∧
        (48000 ≤ h → MainNet_NameExpirationDepth h = 36000)) ∧
    MainNet_NameExpirationDepth 0 = 12000 ∧
    MainNet_NameExpirationDepth 23999 = 12000 ∧
    MainNet_NameExpirationDepth 24000 = 12000 ∧
    MainNet_NameExpirationDepth 47999 = 35999 ∧
    MainNet_NameExpirationDepth 48000 = 36000 ∧
    MainNet_NameExpirationDepth 1000000 = 36000 := by
  refine ⟨fun h => ⟨?_, ?_, ?_⟩, by decide, by decide, by decide,
    by decide, by decide, by decide⟩ <;>
    intros <;> unfold MainNet_NameExpirationDepth <;> split_ifs <;> omega

/-- C2 witness: instance in the middle, linearly growing piece. -/
theorem mainNet_nameExpirationDepth_spec_witness :
    MainNet_NameExpirationDepth 30000 = 30000 - 12000 :=
  (mainNet_nameExpirationDepth_spec.1 30000).2.1 (by decide) (by decide)

/-- C3 counterexample: with cutoff 100 (non-negative) and height 2^31,
`AllowLegacyBlocks` returns true although `height < cutoff` is false, so
the claimed unrestricted "true iff height < cutoff" fails. -/
theorem allowLegacyBlocks_claim_counterexample :
    0 ≤ pCut100.nLegacyBlocksBefore ∧
      ¬ (pCut100.AllowLegacyBlocks (2 ^ 31) = true ↔
          (((2 ^ 31 : Nat) : Int) < pCut100.nLegacyBlocksBefore)) := by
  constructor
  · decide
  · intro hiff
    have ht : pCut100.AllowLegacyBlocks (2 ^ 31) = true := by decide
    exact absurd (hiff.mp ht) (by decide)

/-- C3 (amended): `AllowLegacyBlocks` returns true for every height when
the cutoff is negative; for a non-negative cutoff and heights below 2^31
it returns true iff `height < cutoff`; the particular values of the claim
(cutoff 100 at heights 99, 100, 101; cutoff -1 at heights 0 and
10_000_000) hold as stated. -/
theorem allowLegacyBlocks_spec :
    (∀ (p : Params) (h : Nat),
        (p.nLegacyBlocksBefore < 0 → p.AllowLegacyBlocks h = true) ∧
        (0 ≤ p.nLegacyBlocksBefore → h < 2 ^ 31 →
          (p.AllowLegacyBlocks h = true ↔ (h : Int) < p.nLegacyBlocksBefore))) ∧
    pCut100.AllowLegacyBlocks 99 = true ∧
    pCut100.AllowLegacyBlocks 100 = false ∧
    pCut100.AllowLegacyBlocks 101 = false ∧
    pCutNeg1.AllowLegacyBlocks 0 = true ∧
    pCutNeg1.AllowLegacyBlocks 10000000 = true := by
  refine ⟨fun p h => ⟨?_, ?_⟩, by decide, by decide, by decide, by decide, by decide⟩
  · intro hneg
    simp [Params.AllowLegacyBlocks, hneg]
  · intro hpos hsmall
    unfold Params.AllowLegacyBlocks
    rw [if_neg (by omega), toInt32_of_small h hsmall, decide_eq_true_iff]

/-- C3 witness: cutoff 100 at height 99 through the amended equivalence. -/
theorem allowLegacyBlocks_spec_witness :
    pCut100.AllowLegacyBlocks 99 = true :=
  ((allowLegacyBlocks_spec.1 pCut100 99).2 (by decide) (by decide)).mpr (by decide)

/-- C4: `AllowMinDifficultyBlocks` is false for every block time when the
profile flag is off; when the flag is on it is true iff the block time is
strictly greater than `nMinDifficultySince`, hence false at
`nMinDifficultySince` and true at `nMinDifficultySince + 1`. -/
theorem allowMinDifficultyBlocks_spec :
    ∀ (p : Params) (t : Int),
      (p.fPowAllowMinDifficultyBlocks = false →
        p.AllowMinDifficultyBlocks t = false) ∧
      (p.fPowAllowMinDifficultyBlocks = true →
        ((p.AllowMinDifficultyBlocks t = true ↔ t > p.nMinDifficultySince) ∧
         p.AllowMinDifficultyBlocks p.nMinDifficultySince = false ∧
         p.AllowMinDifficultyBlocks (p.nMinDifficultySince + 1) = true)) := by
  intro p t
  constructor
  · intro hf
    simp [Params.AllowMinDifficultyBlocks, hf]
  · intro ht
    refine ⟨?_, ?_, ?_⟩ <;> simp [Params.AllowMinDifficultyBlocks, ht]

/-- C4 witness: concrete profile with the flag enabled and threshold 1000. -/
theorem allowMinDifficultyBlocks_spec_witness :
    pMinDiffOn.AllowMinDifficultyBlocks 1001 = true ∧
      pMinDiffOn.AllowMinDifficultyBlocks 1000 = false :=
  ⟨((allowMinDifficultyBlocks_spec pMinDiffOn 1001).2 (by decide)).1.mpr (by decide),
   ((allowMinDifficultyBlocks_spec pMinDiffOn 1001).2 (by decide)).2.1⟩

/-- C5: Main's `MinNameCoinAmount` is 0 below height 212500 and `COIN / 100`
from height 212500 on, with the stated boundary values. -/
theorem mainNet_minNameCoinAmount_spec :
    (∀ h : Nat,
        (h < 212500 → MainNet_MinNameCoinAmount h = 0) ∧
        (212500 ≤ h → MainNet_MinNameCoinAmount h = COIN / 100)) ∧
    MainNet_MinNameCoinAmount 0 = 0 ∧
    MainNet_MinNameCoinAmount 212499 = 0 ∧
    MainNet_MinNameCoinAmount 212500 = COIN / 100 := by
  refine ⟨fun h => ⟨?_, ?_⟩, by decide, by decide, by decide⟩ <;>
    intro hh <;> unfold MainNet_MinNameCoinAmount <;> split_ifs <;>
    first | rfl | omega

/-- C5 witness: a height above the cutoff pays the floor. -/
theorem mainNet_minNameCoinAmount_spec_witness :
    MainNet_MinNameCoinAmount 300000 = COIN / 100 :=
  (mainNet_minNameCoinAmount_spec.1 300000).2 (by decide)

/-- C6: Test's and Regtest's `MinNameCoinAmount` return `COIN / 100` at
every height, independent of the argument. -/
theorem testNet_regTest_minNameCoinAmount_const :
    ∀ h : Nat,
      TestNet_MinNameCoinAmount h = COIN / 100 ∧
      RegTest_MinNameCoinAmount h = COIN / 100 :=
  fun _ => ⟨rfl, rfl⟩

/-- C7: Regtest's `NameExpirationDepth` returns 30 at every height. -/
theorem regTest_nameExpirationDepth_const :
    ∀ h : Nat, RegTest_NameExpirationDepth h = 30 :=
  fun _ => rfl

/-- C8: `DifficultyAdjustmentInterval` is the truncating integer quotient
of the pow target timespan by the spacing: on natural-number parameters it
agrees with natural floor division, giving 2016 for 1209600/600 and 3 for
the non-divisible pair 1000/300. -/
theorem difficultyAdjustmentInterval_spec :
    (∀ (p : Params) (a b : Nat),
        p.nPowTargetTimespan = a → p.nPowTargetSpacing = b →
        p.DifficultyAdjustmentInterval = ((a / b : Nat) : Int)) ∧
    pCut100.DifficultyAdjustmentInterval = 2016 ∧
    pOddPow.DifficultyAdjustmentInterval = 3 := by
  refine ⟨?_, by decide, by decide⟩
  intro p a b h1 h2
  simp only [Params.DifficultyAdjustmentInterval, h1, h2]
  rfl

/-- C8 witness: the main parameters 1209600 and 600 give 2016 blocks. -/
theorem difficultyAdjustmentInterval_spec_witness :
    pCut100.DifficultyAdjustmentInterval = ((1209600 / 600 : Nat) : Int) :=
  difficultyAdjustmentInterval_spec.1 pCut100 1209600 600 rfl rfl

/-- C9: Test's `NameExpirationDepth` is extensionally equal to Main's: the
Test profile inherits the predicate unchanged. -/
theorem testNet_nameExpirationDepth_eq_mainNet :
    ∀ h : Nat, TestNet_NameExpirationDepth h = MainNet_NameExpirationDepth h :=
  fun _ => rfl

/-- C10: a non-negative cutoff together with a height in [2^31, 2^32)
makes the `static_cast<int>` conversion wrap to a negative value, so
`AllowLegacyBlocks` returns true although the height is at least the
cutoff. -/
theorem allowLegacyBlocks_wraparound (p : Params) (h : Nat)
    (hc0 : 0 ≤ p.nLegacyBlocksBefore) (hc1 : p.nLegacyBlocksBefore < 2 ^ 31)
    (hh0 : 2 ^ 31 ≤ h) (hh1 : h < 2 ^ 32) :
    p.AllowLegacyBlocks h = true ∧ p.nLegacyBlocksBefore ≤ (h : Int) := by
  constructor
  · unfold Params.AllowLegacyBlocks
    rw [if_neg (by omega), toInt32_of_wrap h hh0 hh1, decide_eq_true_iff]
    omega
  · omega

/-- C10 witness: cutoff 100 at height 2^31. -/
theorem allowLegacyBlocks_wraparound_witness :
    pCut100.AllowLegacyBlocks (2 ^ 31) = true ∧
      pCut100.nLegacyBlocksBefore ≤ (((2 ^ 31 : Nat)) : Int) :=
  allowLegacyBlocks_wraparound pCut100 (2 ^ 31) (by decide) (by decide)
    (by decide) (by decide)
